import Mathlib

/-!
Shallow embedding of src/MicroPickup.py (micro:bit pickup game) and
verification of its specification claims.

The program is a single-threaded game loop.  Pure logic (grid clamping,
movement, direction quantization, the collision update, level progression,
elapsed-time reporting) is embedded as Lean functions; hardware calls
(display, compass, accelerometer, clock, randomness) become explicit
arguments of those functions.
-/

namespace MicroPickup

/-- MAX_POSITION constant of the source (line 12). -/
def MAX_POSITION : Int := 4

/-- MIN_POSITION constant of the source (line 13). -/
def MIN_POSITION : Int := 0

/-- SCREEN_CENTER constant of the source (line 14). -/
def SCREEN_CENTER : Int := 2

/-- Position class: an integer pair. -/
structure Position where
  x : Int
  y : Int
deriving DecidableEq, Repr

/-- GameObject: a position plus a brightness.  Player and Pickup are both
GameObjects distinguished only by their field values, so the embedding
reuses one structure for both. -/
structure GameObject where
  position : Position
  brightness : Int
deriving DecidableEq, Repr

/-- Player is a GameObject (brightness 9 on construction). -/
abbrev Player := GameObject

/-- Pickup is a GameObject (brightness 3 on construction). -/
abbrev Pickup := GameObject

/-- Player.constrainToBoundaries (source lines 53-59): clamp an integer
into [MIN_POSITION, MAX_POSITION]. -/
def Player.constrainToBoundaries (value : Int) : Int :=
  if value < MIN_POSITION then MIN_POSITION
  else if value > MAX_POSITION then MAX_POSITION
  else value

/-- Player.reset (source lines 36-38): reposition to the screen center;
brightness is not touched. -/
def Player.reset (p : Player) : Player :=
  { p with position := { x := SCREEN_CENTER, y := SCREEN_CENTER } }

/-- Player.move (source lines 40-48): one step in a cardinal direction,
clamped to the grid; any other direction string (in particular the empty
string produced at the quantization boundaries) falls through all branches
and leaves the player unchanged. -/
def Player.move (p : Player) (direction : String) : Player :=
  if direction = "N" then
    { p with position := { x := p.position.x,
                           y := Player.constrainToBoundaries (p.position.y - 1) } }
  else if direction = "S" then
    { p with position := { x := p.position.x,
                           y := Player.constrainToBoundaries (p.position.y + 1) } }
  else if direction = "W" then
    { p with position := { x := Player.constrainToBoundaries (p.position.x - 1),
                           y := p.position.y } }
  else if direction = "E" then
    { p with position := { x := Player.constrainToBoundaries (p.position.x + 1),
                           y := p.position.y } }
  else p

/-- Python's random.randrange(n) (standard library, external to src) returns
a value in [0, n); the entropy source is abstracted into the explicit
argument r, reduced modulo n. -/
def randrange (n : Nat) (r : Nat) : Nat := r % n

/-- Pickup.__init__ (source lines 64-68): a fresh pickup at a random
position in [0, MAX_POSITION] on each axis, brightness 3.  rx and ry are
the entropy consumed by the two randrange calls. -/
def Pickup.init (rx ry : Nat) : Pickup :=
  { position := { x := ((randrange (MAX_POSITION + 1).toNat rx : Nat) : Int),
                  y := ((randrange (MAX_POSITION + 1).toNat ry : Nat) : Int) },
    brightness := 3 }

/-- Game state: the player, the pickup list, and the game_running flag
(source lines 71-75). -/
structure Game where
  player : Player
  pickups : List Pickup
  game_running : Bool
deriving DecidableEq, Repr

/-- acceleration_needed_to_move constant of the Game class (source line 75). -/
def acceleration_needed_to_move : Int := 1200

/-- Game.spawnPickups (source lines 80-86): clear the pickup list, then
append amount fresh pickups; pickup number i consumes entropy (rand i).1
and (rand i).2. -/
def Game.spawnPickups (g : Game) (rand : Nat → Nat × Nat) (amount : Nat) : Game :=
  { g with pickups := (List.range amount).map (fun i => Pickup.init (rand i).1 (rand i).2) }

/-- Game.findApproxFacingDirection (source lines 92-104): quantize a compass
heading to a cardinal direction string; the compass reading becomes the
explicit argument heading.  At exactly 45, 135, 225 and 315 no branch
matches and the initial empty string is returned. -/
def Game.findApproxFacingDirection (heading : ℚ) : String :=
  if heading > 315 ∨ heading < 45 then "N"
  else if heading > 225 ∧ heading < 315 then "W"
  else if heading > 135 ∧ heading < 225 then "S"
  else if heading > 45 ∧ heading < 135 then "E"
  else ""

/-- Square of the magnitude computed by Game.getAcceleration (source lines
106-113).  The source computes math.sqrt(x**2 + y**2 + z**2); the only
consumer (Game.getInput, line 136) compares it with 1200, and the square
root is strictly monotone on nonnegative reals, so the embedding carries
the square and compares it with 1200^2.  The motion-trigger theorem below
proves this comparison equivalent to the real-square-root formulation. -/
def getAccelerationSq (x y z : Int) : Int := x ^ 2 + y ^ 2 + z ^ 2

/-- Movement trigger of Game.getInput (source line 136):
getAcceleration() > acceleration_needed_to_move, embedded squared. -/
def shouldMove (x y z : Int) : Bool :=
  decide (acceleration_needed_to_move ^ 2 < getAccelerationSq x y z)

/-- Collision test of Game.update (source lines 122-123): the pickup's x
equals the player's x and its y equals the player's y. -/
def collides (player : Player) (pickup : Pickup) : Bool :=
  pickup.position.x == player.position.x && pickup.position.y == player.position.y

/-- Body of Game.update (source lines 120-124), a Python for-loop that calls
self.pickups.remove(pickup) on the element currently being visited.
Removing the current element shifts the rest of the list one slot left
while the iterator still advances its index, so the element immediately
after a removed one is kept without being examined.  Hence: a colliding
head is dropped and the following element is kept unexamined, a
non-colliding head is kept and iteration continues with the tail. -/
def removeCollided (player : Player) : List Pickup → List Pickup
  | [] => []
  | [p] => if collides player p then [] else [p]
  | p :: q :: rest =>
    if collides player p then q :: removeCollided player rest
    else p :: removeCollided player (q :: rest)

/-- Game.update (source lines 120-124): remove collided pickups; the player
is only read. -/
def Game.update (g : Game) : Game :=
  { g with pickups := removeCollided g.player g.pickups }

/-- Game.startLevel (source lines 126-131): spawn the pickups, reset the
player; the display.clear() call is a hardware effect with no game state. -/
def Game.startLevel (g : Game) (rand : Nat → Nat × Nat) (pickup_amount : Nat) : Game :=
  let g1 := Game.spawnPickups g rand pickup_amount
  { g1 with player := Player.reset g1.player }

/-- Game.isGameOver (source lines 150-156): the pickup list is empty. -/
def Game.isGameOver (g : Game) : Bool :=
  decide (g.pickups.length < 1)

/-- Initial pickup_amount of Game.playGame (source line 161). -/
def initial_pickup_amount : Nat := 4

/-- The pickup_amount increment applied at level completion
(source line 179). -/
def nextPickupAmount (pickup_amount : Nat) : Nat := pickup_amount + 1

/-- pickup_amount used for the k-th level (k = 0 first): the playGame loop
starts from initial_pickup_amount and applies nextPickupAmount once per
completed level. -/
def pickupAmountForLevel : Nat → Nat
  | 0 => initial_pickup_amount
  | k + 1 => nextPickupAmount (pickupAmountForLevel k)

/-- Elapsed-seconds computation of Game.playGame (source lines 174-177):
int((current_time - level_start_time) / 1000).  Python performs true
division and int() truncates toward zero; on the integer millisecond
differences produced by the monotonic clock this is exactly truncating
integer division, embedded as Int.tdiv. -/
def secondsElapsed (level_start_time current_time : Int) : Int :=
  Int.tdiv (current_time - level_start_time) 1000

/-- A position lies on the 5x5 grid. -/
def inRange (p : Position) : Prop :=
  0 ≤ p.x ∧ p.x ≤ 4 ∧ 0 ≤ p.y ∧ p.y ≤ 4

instance (p : Position) : Decidable (inRange p) := by
  unfold inRange; infer_instance

/-- The pickup list produced by the update loop is a sublist of the input:
elements are only ever removed, never added, reordered or modified. -/
theorem removeCollided_sublist (player : Player) (ps : List Pickup) :
    List.Sublist (removeCollided player ps) ps := by
  induction ps using removeCollided.induct player with
  | case1 => exact List.Sublist.refl _
  | case2 p hp => simp [removeCollided, hp]
  | case3 p hp => simp [removeCollided, hp]
  | case4 p q rest hp ih =>
      simp only [removeCollided, if_pos hp]
      exact List.Sublist.cons _ (List.Sublist.cons₂ _ ih)
  | case5 p q rest hp ih =>
      simp only [removeCollided, if_neg hp]
      exact List.Sublist.cons₂ _ ih

/-- Any pickup whose multiplicity drops across the update loop was at the
player's position. -/
theorem removeCollided_count (player : Player) (ps : List Pickup) (x : Pickup)
    (h : (removeCollided player ps).count x < ps.count x) :
    collides player x = true := by
  induction ps using removeCollided.induct player with
  | case1 => simp [removeCollided] at h
  | case2 p hp =>
      by_cases hx : x = p
      · exact hx ▸ hp
      · simp [removeCollided, hp, List.count_cons, hx] at h
  | case3 p hp =>
      simp [removeCollided, hp] at h
  | case4 p q rest hp ih =>
      by_cases hx : p = x
      · exact hx ▸ hp
      · apply ih
        simp only [removeCollided, if_pos hp, List.count_cons, beq_iff_eq, hx,
          if_false] at h
        omega
  | case5 p q rest hp ih =>
      apply ih
      simp only [removeCollided, if_neg hp, List.count_cons] at h ⊢
      omega

/-- If no two consecutive pickups both sit on the player's cell, the update
loop removes every pickup on the player's cell (the skipped element after a
removal is then never one that had to go). -/
theorem removeCollided_chain (player : Player) (ps : List Pickup)
    (hadj : List.Chain' (fun a b => ¬(collides player a = true ∧ collides player b = true)) ps) :
    ∀ p ∈ removeCollided player ps, collides player p = false := by
  induction ps using removeCollided.induct player with
  | case1 => simp [removeCollided]
  | case2 p hp => simp [removeCollided, hp]
  | case3 p hp =>
      simp only [removeCollided, if_neg hp, List.mem_singleton]
      intro r hr
      subst hr
      simpa using hp
  | case4 p q rest hp ih =>
      simp only [removeCollided, if_pos hp]
      intro r hr
      rcases List.mem_cons.mp hr with h1 | h2
      · subst h1
        have hpq := (List.chain'_cons.mp hadj).1
        by_contra hc
        simp only [Bool.not_eq_false] at hc
        exact hpq ⟨hp, hc⟩
      · exact ih (hadj.tail.tail) r h2
  | case5 p q rest hp ih =>
      simp only [removeCollided, if_neg hp]
      intro r hr
      rcases List.mem_cons.mp hr with h1 | h2
      · subst h1
        simpa using hp
      · exact ih hadj.tail r h2

/-- Claim C1, counterexample: with the player at (2,2) and two pickups both
at (2,2), a single Game.update leaves one pickup at (2,2) — the player's own
cell — in the collection, so it is false that after one update no pickup at
the player's position remains when two or more pickups occupy that cell. -/
theorem update_adjacent_double_collision_counterexample :
    (Game.update
        { player := { position := { x := 2, y := 2 }, brightness := 9 },
          pickups := [{ position := { x := 2, y := 2 }, brightness := 3 },
                      { position := { x := 2, y := 2 }, brightness := 3 }],
          game_running := true }).pickups
      = [{ position := { x := 2, y := 2 }, brightness := 3 }]
    ∧ collides { position := { x := 2, y := 2 }, brightness := 9 }
        { position := { x := 2, y := 2 }, brightness := 3 } = true := by
  decide

/-- Claim C1 (amended): a single Game.update removes every pickup at the
player's position provided no pickup at the player's position immediately
follows another one in the collection (removing an element makes the loop
skip the element after it, so the second of two adjacent colliding pickups
survives until a later call); in the spec's instance — player at (2,2),
pickups at [(2,2), (3,3)] — exactly the (2,2) pickup is removed and the
(3,3) pickup is the one pickup remaining. -/
theorem update_resolves_nonadjacent_collisions (g : Game)
    (hadj : List.Chain'
      (fun a b => ¬(collides g.player a = true ∧ collides g.player b = true)) g.pickups) :
    (∀ p ∈ (Game.update g).pickups, collides g.player p = false) ∧
    (Game.update
        { player := { position := { x := 2, y := 2 }, brightness := 9 },
          pickups := [{ position := { x := 2, y := 2 }, brightness := 3 },
                      { position := { x := 3, y := 3 }, brightness := 3 }],
          game_running := true }).pickups
      = [{ position := { x := 3, y := 3 }, brightness := 3 }] :=
  ⟨removeCollided_chain g.player g.pickups hadj, by decide⟩

/-- Witness for the amended claim C1 at the spec's instance: the surviving
(3,3) pickup is not at the player's position. -/
theorem update_resolves_nonadjacent_collisions_witness :
    collides { position := { x := 2, y := 2 }, brightness := 9 }
      { position := { x := 3, y := 3 }, brightness := 3 } = false :=
  (update_resolves_nonadjacent_collisions
      { player := { position := { x := 2, y := 2 }, brightness := 9 },
        pickups := [{ position := { x := 2, y := 2 }, brightness := 3 },
                    { position := { x := 3, y := 3 }, brightness := 3 }],
        game_running := true }
      (List.chain'_pair.mpr (by decide))).1
    { position := { x := 3, y := 3 }, brightness := 3 } (by decide)

/-- Claim C7: constrainToBoundaries is idempotent, is the identity on
[0, 4], and saturates: negative inputs go to 0 and inputs above 4 go to 4. -/
theorem constrainToBoundaries_clamp (v : Int) :
    Player.constrainToBoundaries (Player.constrainToBoundaries v)
        = Player.constrainToBoundaries v ∧
    (0 ≤ v → v ≤ 4 → Player.constrainToBoundaries v = v) ∧
    (v < 0 → Player.constrainToBoundaries v = 0) ∧
    (4 < v → Player.constrainToBoundaries v = 4) := by
  simp only [Player.constrainToBoundaries, MIN_POSITION, MAX_POSITION]
  refine ⟨?_, ?_, ?_, ?_⟩ <;> (intros; split_ifs <;> omega)

/-- Witness for claim C7 at v = 7: the clamp saturates to 4. -/
theorem constrainToBoundaries_clamp_witness :
    Player.constrainToBoundaries 7 = 4 :=
  (constrainToBoundaries_clamp 7).2.2.2 (by decide)

/-- Claim C9: Game.startLevel puts the player at the grid center (2,2) and
leaves the player's brightness exactly as it was before the call. -/
theorem startLevel_resets_position_preserves_brightness
    (g : Game) (rand : Nat → Nat × Nat) (amount : Nat) :
    (Game.startLevel g rand amount).player.position = { x := 2, y := 2 } ∧
    (Game.startLevel g rand amount).player.brightness = g.player.brightness := by
  constructor <;>
    simp [Game.startLevel, Game.spawnPickups, Player.reset, SCREEN_CENTER]

/-- Claim C10: Game.update only ever removes pickups — the player is
untouched, the surviving pickups form a sublist of the previous collection
(same objects, same positions and brightness, same order), and any pickup
whose multiplicity dropped was located at the player's position. -/
theorem update_only_removes_collided (g : Game) :
    (Game.update g).player = g.player ∧
    List.Sublist (Game.update g).pickups g.pickups ∧
    (∀ p : Pickup, (Game.update g).pickups.count p < g.pickups.count p →
        collides g.player p = true) :=
  ⟨rfl, removeCollided_sublist g.player g.pickups,
    fun p h => removeCollided_count g.player g.pickups p h⟩

/-- Witness for claim C10: in the game with the player at (2,2) and one
pickup at (2,2), that pickup's multiplicity drops, and indeed it collides
with the player. -/
theorem update_only_removes_collided_witness :
    collides { position := { x := 2, y := 2 }, brightness := 9 }
      { position := { x := 2, y := 2 }, brightness := 3 } = true :=
  (update_only_removes_collided
      { player := { position := { x := 2, y := 2 }, brightness := 9 },
        pickups := [{ position := { x := 2, y := 2 }, brightness := 3 }],
        game_running := true }).2.2
    { position := { x := 2, y := 2 }, brightness := 3 } (by decide)

/-- Claim C2: over headings in [0, 360), the quantization maps
(315, 360) and [0, 45) to North, (225, 315) to West, (135, 225) to South
and (45, 135) to East, returns the empty string at exactly 45, 135, 225
and 315, and in particular maps 10 to North, 100 to East, 200 to South,
280 to West and 45 to no direction. -/
theorem findApproxFacingDirection_quantization (h : ℚ) (h0 : 0 ≤ h) (h360 : h < 360) :
    ((315 < h ∨ h < 45) → Game.findApproxFacingDirection h = "N") ∧
    (225 < h ∧ h < 315 → Game.findApproxFacingDirection h = "W") ∧
    (135 < h ∧ h < 225 → Game.findApproxFacingDirection h = "S") ∧
    (45 < h ∧ h < 135 → Game.findApproxFacingDirection h = "E") ∧
    ((h = 45 ∨ h = 135 ∨ h = 225 ∨ h = 315) → Game.findApproxFacingDirection h = "") ∧
    Game.findApproxFacingDirection 10 = "N" ∧
    Game.findApproxFacingDirection 100 = "E" ∧
    Game.findApproxFacingDirection 200 = "S" ∧
    Game.findApproxFacingDirection 280 = "W" ∧
    Game.findApproxFacingDirection 45 = "" := by
  refine ⟨?_, ?_, ?_, ?_, ?_, by decide, by decide, by decide, by decide, by decide⟩
  · intro hc
    rw [Game.findApproxFacingDirection, if_pos hc]
  · intro hc
    rw [Game.findApproxFacingDirection,
      if_neg (by push_neg; constructor <;> linarith [hc.1, hc.2]),
      if_pos hc]
  · intro hc
    rw [Game.findApproxFacingDirection,
      if_neg (by push_neg; constructor <;> linarith [hc.1, hc.2]),
      if_neg (by intro h1; linarith [hc.2, h1.1]),
      if_pos hc]
  · intro hc
    rw [Game.findApproxFacingDirection,
      if_neg (by push_neg; constructor <;> linarith [hc.1, hc.2]),
      if_neg (by intro h1; linarith [hc.2, h1.1]),
      if_neg (by intro h1; linarith [hc.2, h1.1]),
      if_pos hc]
  · intro hc
    rcases hc with rfl | rfl | rfl | rfl <;> decide

/-- Witness for claim C2 at heading 100: East. -/
theorem findApproxFacingDirection_quantization_witness :
    Game.findApproxFacingDirection 100 = "E" :=
  (findApproxFacingDirection_quantization 100 (by norm_num) (by norm_num)).2.2.2.1
    ⟨by norm_num, by norm_num⟩

/-- Claim C3: the embedded motion trigger fires exactly when the real
Euclidean magnitude of the three accelerometer readings exceeds 1200; at
magnitude exactly 1200 the trigger does not fire, at 1201 it fires, and at
readings (1000, 0, 0) — magnitude 1000 — it does not fire. -/
theorem shouldMove_iff_magnitude_gt_1200 :
    (∀ x y z : Int, shouldMove x y z = true ↔
        (1200 : ℝ) < Real.sqrt ((x : ℝ) ^ 2 + (y : ℝ) ^ 2 + (z : ℝ) ^ 2)) ∧
    shouldMove 1200 0 0 = false ∧
    shouldMove 1201 0 0 = true ∧
    shouldMove 1000 0 0 = false := by
  refine ⟨?_, by decide, by decide, by decide⟩
  intro x y z
  rw [shouldMove, decide_eq_true_eq, Real.lt_sqrt (by norm_num),
    acceleration_needed_to_move, getAccelerationSq]
  constructor
  · intro hlt
    have : (((1200 : ℤ) ^ 2 : ℤ) : ℝ) < ((x ^ 2 + y ^ 2 + z ^ 2 : ℤ) : ℝ) := by
      exact_mod_cast hlt
    push_cast at this
    linarith
  · intro hlt
    have : (((1200 : ℤ) ^ 2 : ℤ) : ℝ) < ((x ^ 2 + y ^ 2 + z ^ 2 : ℤ) : ℝ) := by
      push_cast
      linarith
    exact_mod_cast this

/-- Claim C4: the first level uses the fixed constant 4 as pickup_amount,
startLevel spawns exactly the requested number of pickups whatever the
previous pickup list was, level completion increments pickup_amount by
exactly 1, and the level after the first therefore spawns exactly 5
pickups. -/
theorem levelProgression_spawn_counts :
    initial_pickup_amount = 4 ∧
    (∀ (g : Game) (rand : Nat → Nat × Nat) (amount : Nat),
        ((Game.startLevel g rand amount).pickups).length = amount) ∧
    (∀ n : Nat, nextPickupAmount n = n + 1) ∧
    pickupAmountForLevel 1 = 5 ∧
    (∀ (g : Game) (rand : Nat → Nat × Nat),
        ((Game.startLevel g rand (pickupAmountForLevel 1)).pickups).length = 5) := by
  refine ⟨rfl, ?_, fun n => rfl, rfl, ?_⟩
  · intro g rand amount
    simp [Game.startLevel, Game.spawnPickups]
  · intro g rand
    simp [Game.startLevel, Game.spawnPickups, pickupAmountForLevel,
      nextPickupAmount, initial_pickup_amount]

/-- Claim C5: for clock values with current_time at least level_start_time,
the reported elapsed seconds are the real quotient of the millisecond
difference by 1000 rounded down (truncation toward zero agrees with floor
on these nonnegative differences), and a 2500 ms difference reports 2. -/
theorem secondsElapsed_truncates (level_start_time current_time : Int)
    (hle : level_start_time ≤ current_time) :
    secondsElapsed level_start_time current_time
        = ⌊((current_time : ℚ) - (level_start_time : ℚ)) / 1000⌋ ∧
    secondsElapsed 0 2500 = 2 := by
  constructor
  · rw [secondsElapsed, Int.tdiv_eq_ediv (by omega) (by norm_num)]
    rw [show ((current_time : ℚ) - (level_start_time : ℚ))
          = ((current_time - level_start_time : ℤ) : ℚ) by push_cast; ring]
    rw [show ((1000 : ℚ)) = ((1000 : ℕ) : ℚ) by norm_num,
      Rat.floor_intCast_div_natCast]
    norm_num
  · decide

/-- Witness for claim C5 at a 2500 ms difference. -/
theorem secondsElapsed_truncates_witness :
    secondsElapsed 0 2500 = ⌊(((2500 : ℤ) : ℚ) - ((0 : ℤ) : ℚ)) / 1000⌋ :=
  (secondsElapsed_truncates 0 2500 (by decide)).1

/-- Claim C6: Player.move saturates at the grid bounds — at x = 0 a West
move is a no-op and at x = 4 an East move is a no-op — the empty direction
leaves the player unchanged, and away from the saturating bound each
cardinal direction moves the player exactly one cell. -/
theorem move_one_cell_saturating :
    (∀ pl : Player, pl.position.x = 0 → Player.move pl "W" = pl) ∧
    (∀ pl : Player, pl.position.x = 4 → Player.move pl "E" = pl) ∧
    (∀ pl : Player, Player.move pl "" = pl) ∧
    (∀ pl : Player, 0 < pl.position.x → pl.position.x ≤ 4 →
        Player.move pl "W"
          = { pl with position := { x := pl.position.x - 1, y := pl.position.y } }) ∧
    (∀ pl : Player, 0 ≤ pl.position.x → pl.position.x < 4 →
        Player.move pl "E"
          = { pl with position := { x := pl.position.x + 1, y := pl.position.y } }) ∧
    (∀ pl : Player, 0 < pl.position.y → pl.position.y ≤ 4 →
        Player.move pl "N"
          = { pl with position := { x := pl.position.x, y := pl.position.y - 1 } }) ∧
    (∀ pl : Player, 0 ≤ pl.position.y → pl.position.y < 4 →
        Player.move pl "S"
          = { pl with position := { x := pl.position.x, y := pl.position.y + 1 } }) := by
  have hclamp : ∀ v : Int, 0 ≤ v → v ≤ 4 → Player.constrainToBoundaries v = v := by
    intro v h1 h2
    simp only [Player.constrainToBoundaries, MIN_POSITION, MAX_POSITION]
    split_ifs <;> omega
  refine ⟨?_, ?_, ?_, ?_, ?_, ?_, ?_⟩
  · rintro ⟨⟨px, py⟩, b⟩ hx
    replace hx : px = 0 := hx
    subst hx
    rfl
  · rintro ⟨⟨px, py⟩, b⟩ hx
    replace hx : px = 4 := hx
    subst hx
    rfl
  · intro pl
    rfl
  · rintro ⟨⟨px, py⟩, b⟩ h1 h2
    replace h1 : 0 < px := h1
    replace h2 : px ≤ 4 := h2
    show (⟨⟨Player.constrainToBoundaries (px - 1), py⟩, b⟩ : GameObject)
        = ⟨⟨px - 1, py⟩, b⟩
    rw [hclamp (px - 1) (by omega) (by omega)]
  · rintro ⟨⟨px, py⟩, b⟩ h1 h2
    replace h1 : 0 ≤ px := h1
    replace h2 : px < 4 := h2
    show (⟨⟨Player.constrainToBoundaries (px + 1), py⟩, b⟩ : GameObject)
        = ⟨⟨px + 1, py⟩, b⟩
    rw [hclamp (px + 1) (by omega) (by omega)]
  · rintro ⟨⟨px, py⟩, b⟩ h1 h2
    replace h1 : 0 < py := h1
    replace h2 : py ≤ 4 := h2
    show (⟨⟨px, Player.constrainToBoundaries (py - 1)⟩, b⟩ : GameObject)
        = ⟨⟨px, py - 1⟩, b⟩
    rw [hclamp (py - 1) (by omega) (by omega)]
  · rintro ⟨⟨px, py⟩, b⟩ h1 h2
    replace h1 : 0 ≤ py := h1
    replace h2 : py < 4 := h2
    show (⟨⟨px, Player.constrainToBoundaries (py + 1)⟩, b⟩ : GameObject)
        = ⟨⟨px, py + 1⟩, b⟩
    rw [hclamp (py + 1) (by omega) (by omega)]

/-- Witness for claim C6: at x = 0 a West move is a no-op. -/
theorem move_one_cell_saturating_witness :
    Player.move { position := { x := 0, y := 3 }, brightness := 9 } "W"
      = { position := { x := 0, y := 3 }, brightness := 9 } :=
  move_one_cell_saturating.1 { position := { x := 0, y := 3 }, brightness := 9 } rfl

/-- Claim C8: freshly spawned pickups lie on the 5x5 grid, Player.reset
places the player at the in-range center (2,2), and Player.move maps
in-range positions to in-range positions. -/
theorem grid_bounds_invariant :
    (∀ rx ry : Nat, inRange (Pickup.init rx ry).position) ∧
    (∀ pl : Player, (Player.reset pl).position = { x := 2, y := 2 }
        ∧ inRange (Player.reset pl).position) ∧
    (∀ (pl : Player) (d : String),
        inRange pl.position → inRange (Player.move pl d).position) := by
  refine ⟨?_, ?_, ?_⟩
  · intro rx ry
    show 0 ≤ ((rx % 5 : Nat) : Int) ∧ ((rx % 5 : Nat) : Int) ≤ 4
        ∧ 0 ≤ ((ry % 5 : Nat) : Int) ∧ ((ry % 5 : Nat) : Int) ≤ 4
    refine ⟨?_, ?_, ?_, ?_⟩ <;> omega
  · intro pl
    constructor <;> simp [Player.reset, SCREEN_CENTER, inRange]
  · rintro ⟨⟨px, py⟩, b⟩ d h
    replace h : 0 ≤ px ∧ px ≤ 4 ∧ 0 ≤ py ∧ py ≤ 4 := h
    have hclamp : ∀ v : Int, 0 ≤ Player.constrainToBoundaries v
        ∧ Player.constrainToBoundaries v ≤ 4 := by
      intro v
      simp only [Player.constrainToBoundaries, MIN_POSITION, MAX_POSITION]
      split_ifs <;> omega
    simp only [Player.move]
    split_ifs
    · exact ⟨h.1, h.2.1, (hclamp (py - 1)).1, (hclamp (py - 1)).2⟩
    · exact ⟨h.1, h.2.1, (hclamp (py + 1)).1, (hclamp (py + 1)).2⟩
    · exact ⟨(hclamp (px - 1)).1, (hclamp (px - 1)).2, h.2.2.1, h.2.2.2⟩
    · exact ⟨(hclamp (px + 1)).1, (hclamp (px + 1)).2, h.2.2.1, h.2.2.2⟩
    · exact h

/-- Witness for claim C8: a North move from the in-range center stays in
range. -/
theorem grid_bounds_invariant_witness :
    inRange (Player.move { position := { x := 2, y := 2 }, brightness := 9 } "N").position :=
  grid_bounds_invariant.2.2
    { position := { x := 2, y := 2 }, brightness := 9 } "N" (by decide)

end MicroPickup
